import Mathlib

/-!
Verification of the MiniScape movement-synchronization subsystem.

Shallow embedding of the client movement code:
  - `updatePlayerZone`            from src/components/GameCanvas.tsx lines 742-759
                                  (identical copy at src/frontend/components/GameCanvas.tsx 1374-1391)
  - `sendPositionUpdate`          from src/frontend/components/GameCanvas.tsx lines 1394-1484
  - `handlePlayerMoved`           from src/frontend/components/GameCanvas.tsx lines 781-867
  - `detectAnomalousMovement`     from src/components/GameCanvas.tsx lines 690-739
                                  (identical copy at src/frontend/components/GameCanvas.tsx 1322-1371)
  - `updatePlayerMovementCanvas`  from src/frontend/components/GameCanvas.tsx lines 1261-1319
  - `updatePlayerMovementHook`    from src/frontend/hooks/usePlayerMovement.ts lines 33-137

JavaScript numbers are embedded as real numbers where the code computes with
Math.sqrt or trigonometry, and as rational numbers in the components whose
operations are all exact field operations and comparisons (zone classifier,
update throttle), which keeps those definitions fully computable.
-/

/-- World boundary rectangle, from `const WORLD_BOUNDS = { minX: -50, maxX: 50, minZ: -50, maxZ: 50 }`
(src/frontend/components/GameCanvas.tsx lines 21-26, identical in src/components/GameCanvas.tsx). -/
structure WorldBounds where
  minX : ℝ
  maxX : ℝ
  minZ : ℝ
  maxZ : ℝ

/-- The world bounds constant of both GameCanvas files. -/
def WORLD_BOUNDS : WorldBounds := ⟨-50, 50, -50, 50⟩

/-- Movement speed constant, `const MOVEMENT_SPEED = 0.15` (GameCanvas.tsx line 19). -/
noncomputable def MOVEMENT_SPEED : ℝ := 0.15

/-- Gravity constant of the frontend GameCanvas, `const GRAVITY = 0.015` (line 109). -/
noncomputable def GRAVITY : ℝ := 0.015

/-- Large-movement smoothing threshold, `const LARGE_MOVEMENT_THRESHOLD = 5` (frontend GameCanvas line 819). -/
def LARGE_MOVEMENT_THRESHOLD : ℝ := 5

/-- Anomalous speed threshold, `const ANOMALOUS_SPEED_THRESHOLD = 1.0` (GameCanvas line 66/80). -/
def ANOMALOUS_SPEED_THRESHOLD : ℝ := 1

/-- Clamp an x coordinate to the world bounds,
`Math.max(WORLD_BOUNDS.minX, Math.min(WORLD_BOUNDS.maxX, x))`. -/
noncomputable def clampX (x : ℝ) : ℝ := max WORLD_BOUNDS.minX (min WORLD_BOUNDS.maxX x)

/-- Clamp a z coordinate to the world bounds,
`Math.max(WORLD_BOUNDS.minZ, Math.min(WORLD_BOUNDS.maxZ, z))`. -/
noncomputable def clampZ (z : ℝ) : ℝ := max WORLD_BOUNDS.minZ (min WORLD_BOUNDS.maxZ z)

/-! ### ZoneClassifier -/

/-- Zone classification, the pure `newZone` computation of `updatePlayerZone`
(src/components/GameCanvas.tsx lines 742-755, identical in the frontend copy).
All comparisons are exact, so the rational carrier is used. -/
def updatePlayerZone (x z : ℚ) : String :=
  if x < -10 ∧ z < -10 then "Barbarian Village"
  else if x > 25 ∧ z < 0 then "Fishing Spot"
  else if x > 0 ∧ z > 25 then "Grand Exchange"
  else if x < -30 ∨ z < -30 ∨ x > 30 ∨ z > 30 then "Wilderness"
  else "Lumbridge"

/-- C5 counterexample: at (40, 40) the third rule (x > 0 and z > 25) fires before the
Wilderness rule, so the classifier returns "Grand Exchange", not "Wilderness" as the
claim (and the test vector in spec section 8) states. -/
theorem zoneClassifier_40_40_is_grand_exchange :
    updatePlayerZone 40 40 = "Grand Exchange" ∧ updatePlayerZone 40 40 ≠ "Wilderness" := by
  constructor <;> decide

/-- C5 (amended): the classifier, evaluating its five rules in the fixed priority order,
returns "Barbarian Village" at (-20,-20), "Fishing Spot" at (30,-10), "Grand Exchange"
at (5,30), "Grand Exchange" at (40,40) (the rule order of spec section 4.5, which the
code implements, classifies (40,40) by rule 3 before the Wilderness rule can apply),
and "Lumbridge" at (0,0). -/
theorem zoneClassifier_literal_coordinates :
    updatePlayerZone (-20) (-20) = "Barbarian Village" ∧
    updatePlayerZone 30 (-10) = "Fishing Spot" ∧
    updatePlayerZone 5 30 = "Grand Exchange" ∧
    updatePlayerZone 40 40 = "Grand Exchange" ∧
    updatePlayerZone 0 0 = "Lumbridge" := by
  refine ⟨?_, ?_, ?_, ?_, ?_⟩ <;> decide

/-! ### UpdateThrottle -/

/-- Throttle interval, `const SEND_INTERVAL = 100` (frontend GameCanvas line 72). -/
def SEND_INTERVAL : ℚ := 100

/-- Clamp an x coordinate to the world bounds in the rational carrier
(the same WORLD_BOUNDS rectangle, used by the throttle before transmission). -/
def clampXQ (x : ℚ) : ℚ := max (-50) (min 50 x)

/-- Clamp a z coordinate to the world bounds in the rational carrier. -/
def clampZQ (z : ℚ) : ℚ := max (-50) (min 50 z)

/-- Mutable state of the update throttle: `lastSentPosition`, `lastSendTime` and the
`movementChanged` flag (frontend GameCanvas lines 70-76). -/
structure ThrottleState where
  lastSentX : ℚ
  lastSentY : ℚ
  lastSentZ : ℚ
  lastSendTime : ℚ
  movementChanged : Bool

/-- Inputs read by one call of `sendPositionUpdate`: `ready` collapses the
`playerRef.current` / `isConnected` / `isSocketReady()` early-return checks
(lines 1396-1414), `emitOk` is the `socket && socket.connected` check at the
emission point (line 1449), `now` is `Date.now()`, and the pos fields are the
current local player position. -/
structure ThrottleInput where
  ready : Bool
  emitOk : Bool
  now : ℚ
  posX : ℚ
  posY : ℚ
  posZ : ℚ

/-- One call of `sendPositionUpdate` (src/frontend/components/GameCanvas.tsx lines
1394-1484). Returns the new throttle state and the emitted position, if any.
Mirrors the source: early return when not ready or the flag is clear; then the
time gate, the minimum-delta gate against `lastSentPosition`, bounds clamping of
the emitted position, and the unconditional `movementChanged.current = false`
at line 1483 on every path that passes the early returns. -/
def sendPositionUpdate (i : ThrottleInput) (st : ThrottleState) :
    ThrottleState × Option (ℚ × ℚ × ℚ) :=
  if !i.ready then (st, none)
  else if !st.movementChanged then (st, none)
  else
    let res :=
      if i.now - st.lastSendTime ≥ SEND_INTERVAL then
        let dx := |i.posX - st.lastSentX|
        let dz := |i.posZ - st.lastSentZ|
        if dx > 0.01 ∨ dz > 0.01 then
          if i.emitOk then
            let validX := clampXQ i.posX
            let validZ := clampZQ i.posZ
            ({ st with lastSentX := validX, lastSentY := i.posY, lastSentZ := validZ,
                       lastSendTime := i.now },
             some (validX, i.posY, validZ))
          else (st, none)
        else (st, none)
      else (st, none)
    ({ res.1 with movementChanged := false }, res.2)

/-- Run the throttle over a list of inputs, collecting each emitted report together
with the time of the call that emitted it. -/
def runThrottle (st : ThrottleState) : List ThrottleInput → List (ℚ × (ℚ × ℚ × ℚ))
  | [] => []
  | i :: rest =>
    match sendPositionUpdate i st with
    | (st2, some p) => (i.now, p) :: runThrottle st2 rest
    | (st2, none) => runThrottle st2 rest

lemma sendPositionUpdate_emit {i : ThrottleInput} {st : ThrottleState} {out : ℚ × ℚ × ℚ}
    (h : (sendPositionUpdate i st).2 = some out) :
    st.lastSendTime + SEND_INTERVAL ≤ i.now ∧
    (|i.posX - st.lastSentX| > 0.01 ∨ |i.posZ - st.lastSentZ| > 0.01) ∧
    out = (clampXQ i.posX, i.posY, clampZQ i.posZ) ∧
    (sendPositionUpdate i st).1.lastSendTime = i.now := by
  rw [sendPositionUpdate] at h
  by_cases hr : i.ready
  · by_cases hm : st.movementChanged
    · by_cases ht : i.now - st.lastSendTime ≥ SEND_INTERVAL
      · by_cases hd : |i.posX - st.lastSentX| > 0.01 ∨ |i.posZ - st.lastSentZ| > 0.01
        · by_cases he : i.emitOk
          · rw [sendPositionUpdate]
            simp only [hr, hm, ht, hd, he, Bool.not_true, Bool.false_eq_true, if_false,
              if_true, if_pos, Option.some.injEq] at h ⊢
            exact ⟨by linarith, trivial, h.symm, trivial⟩
          · simp [hr, hm, ht, hd, he] at h
        · simp [hr, hm, ht, hd] at h
      · simp [hr, hm, ht] at h
    · simp [hr, hm] at h
  · simp [hr] at h

lemma sendPositionUpdate_noEmit {i : ThrottleInput} {st : ThrottleState}
    (h : (sendPositionUpdate i st).2 = none) :
    (sendPositionUpdate i st).1.lastSendTime = st.lastSendTime := by
  rw [sendPositionUpdate] at h ⊢
  by_cases hr : i.ready
  · by_cases hm : st.movementChanged
    · by_cases ht : i.now - st.lastSendTime ≥ SEND_INTERVAL
      · by_cases hd : |i.posX - st.lastSentX| > 0.01 ∨ |i.posZ - st.lastSentZ| > 0.01
        · by_cases he : i.emitOk
          · simp [hr, hm, ht, hd, he] at h
          · simp [hr, hm, ht, hd, he]
        · simp [hr, hm, ht, hd]
      · simp [hr, hm, ht]
    · simp [hr, hm]
  · simp [hr]

/-- Every emission in a run is at least SEND_INTERVAL after the lastSendTime of the
starting state, and emissions are pairwise at least SEND_INTERVAL apart. -/
lemma runThrottle_separated :
    ∀ (inputs : List ThrottleInput) (st : ThrottleState),
      (∀ e ∈ runThrottle st inputs, st.lastSendTime + SEND_INTERVAL ≤ e.1) ∧
      (runThrottle st inputs).Pairwise (fun a b => a.1 + SEND_INTERVAL ≤ b.1)
  | [], st => by simp [runThrottle]
  | i :: rest, st => by
    have hS : (0 : ℚ) ≤ SEND_INTERVAL := by norm_num [SEND_INTERVAL]
    unfold runThrottle
    rcases hstep : sendPositionUpdate i st with ⟨st2, e⟩
    rcases e with _ | p
    · simp only
      have hlt : st2.lastSendTime = st.lastSendTime := by
        have h0 : (sendPositionUpdate i st).2 = none := by rw [hstep]
        have := sendPositionUpdate_noEmit h0
        rwa [hstep] at this
      have ih := runThrottle_separated rest st2
      exact ⟨fun e he => hlt ▸ ih.1 e he, ih.2⟩
    · simp only
      have h0 : (sendPositionUpdate i st).2 = some p := by rw [hstep]
      have hemit := sendPositionUpdate_emit h0
      rw [hstep] at hemit
      have hlt : st2.lastSendTime = i.now := hemit.2.2.2
      have ih := runThrottle_separated rest st2
      have hrest : ∀ e ∈ runThrottle st2 rest, i.now + SEND_INTERVAL ≤ e.1 := by
        intro e he
        have := ih.1 e he
        rwa [hlt] at this
      constructor
      · intro e he
        rcases List.mem_cons.mp he with rfl | he2
        · exact hemit.1
        · have h1 := hrest e he2
          have h2 := hemit.1
          linarith
      · exact List.pairwise_cons.mpr ⟨hrest, ih.2⟩

/-- C4: the update throttle emits a report only when both the time gate
(now - lastSendTime at least SEND_INTERVAL) and the minimum positional delta gate
(more than 0.01 on x or z relative to lastSentPosition) hold, the emitted position
is bounds-clamped, and any run emits at most one report in any window of length
SEND_INTERVAL. -/
theorem updateThrottle_contract :
    (∀ (i : ThrottleInput) (st : ThrottleState) (out : ℚ × ℚ × ℚ),
        (sendPositionUpdate i st).2 = some out →
        i.now - st.lastSendTime ≥ SEND_INTERVAL ∧
        (|i.posX - st.lastSentX| > 0.01 ∨ |i.posZ - st.lastSentZ| > 0.01) ∧
        out = (clampXQ i.posX, i.posY, clampZQ i.posZ)) ∧
    (∀ (st : ThrottleState) (inputs : List ThrottleInput) (t0 : ℚ),
        ((runThrottle st inputs).filter
            (fun e => decide (t0 ≤ e.1 ∧ e.1 < t0 + SEND_INTERVAL))).length ≤ 1) := by
  constructor
  · intro i st out h
    have he := sendPositionUpdate_emit h
    exact ⟨by linarith [he.1], he.2.1, he.2.2.1⟩
  · intro st inputs t0
    have hpw := (runThrottle_separated inputs st).2
    have hfil := hpw.filter (fun e => decide (t0 ≤ e.1 ∧ e.1 < t0 + SEND_INTERVAL))
    rcases hlist : (runThrottle st inputs).filter
        (fun e => decide (t0 ≤ e.1 ∧ e.1 < t0 + SEND_INTERVAL)) with _ | ⟨a, _ | ⟨b, tl⟩⟩
    · rw [hlist]
      simp
    · rw [hlist]
      simp
    · exfalso
      rw [hlist] at hfil
      have hab : a.1 + SEND_INTERVAL ≤ b.1 :=
        (List.pairwise_cons.mp hfil).1 b (List.mem_cons_self b tl)
      have ha : t0 ≤ a.1 ∧ a.1 < t0 + SEND_INTERVAL := by
        have := List.mem_filter.mp (hlist ▸ List.mem_cons_self a (b :: tl))
        simpa using this.2
      have hb : t0 ≤ b.1 ∧ b.1 < t0 + SEND_INTERVAL := by
        have := List.mem_filter.mp
          (hlist ▸ List.mem_cons_of_mem a (List.mem_cons_self b tl))
        simpa using this.2
      linarith [ha.1, ha.2, hb.1, hb.2, hab]

/-- Witness state for the throttle theorems: lastSentPosition (0,1,0), lastSendTime 0,
movementChanged set. -/
def throttleSt0 : ThrottleState := ⟨0, 1, 0, 0, true⟩

/-- Witness input that passes every gate at time 100 with position (1,1,0). -/
def throttleInEmit : ThrottleInput := ⟨true, true, 100, 1, 1, 0⟩

lemma throttle_emit_eval :
    (sendPositionUpdate throttleInEmit throttleSt0).2 = some (1, 1, 0) := by
  rw [sendPositionUpdate]
  norm_num [throttleInEmit, throttleSt0, SEND_INTERVAL, clampXQ, clampZQ, min_def, max_def]

/-- C4 witness: at the concrete emitting call (time 100 from lastSendTime 0, position
(1,1,0) against lastSentPosition (0,1,0)) the theorem yields the gate conditions and
the clamped output. -/
theorem updateThrottle_contract_witness :
    throttleInEmit.now - throttleSt0.lastSendTime ≥ SEND_INTERVAL ∧
    (|throttleInEmit.posX - throttleSt0.lastSentX| > 0.01 ∨
      |throttleInEmit.posZ - throttleSt0.lastSentZ| > 0.01) ∧
    ((1 : ℚ), (1 : ℚ), (0 : ℚ)) =
      (clampXQ throttleInEmit.posX, throttleInEmit.posY, clampZQ throttleInEmit.posZ) :=
  updateThrottle_contract.1 throttleInEmit throttleSt0 (1, 1, 0) throttle_emit_eval

/-- Witness input whose time gate fails (time 50 against lastSendTime 0 with
SEND_INTERVAL 100), with connectivity up and a large position delta. -/
def throttleInEarly : ThrottleInput := ⟨true, true, 50, 1, 1, 0⟩

/-- C9 counterexample: on a send attempt whose time gate fails, no report is emitted
and yet the movementChanged flag is cleared: line 1483 of the frontend GameCanvas
resets the flag on every call that passes the connectivity and flag checks,
emission or not, contradicting the claim that the flag persists until emission. -/
theorem throttle_flag_cleared_without_emission :
    (sendPositionUpdate throttleInEarly throttleSt0).2 = none ∧
    (sendPositionUpdate throttleInEarly throttleSt0).1.movementChanged = false := by
  rw [sendPositionUpdate]
  norm_num [throttleInEarly, throttleSt0, SEND_INTERVAL]

/-- C9 (amended): the movementChanged flag is cleared by every send attempt that
passes the connectivity checks while the flag is set, whether or not a report is
emitted (the deliberate unconditional reset at frontend GameCanvas line 1483,
commented as preventing movement from getting stuck); the flag and the rest of the
state persist exactly when the connectivity checks fail or the flag was already
clear. -/
theorem throttle_flag_clears_on_attempt (i : ThrottleInput) (st : ThrottleState) :
    (i.ready = true → st.movementChanged = true →
      (sendPositionUpdate i st).1.movementChanged = false) ∧
    (i.ready = false ∨ st.movementChanged = false →
      sendPositionUpdate i st = (st, none)) := by
  constructor
  · intro hr hm
    rw [sendPositionUpdate]
    by_cases ht : i.now - st.lastSendTime ≥ SEND_INTERVAL
    · by_cases hd : |i.posX - st.lastSentX| > 0.01 ∨ |i.posZ - st.lastSentZ| > 0.01
      · by_cases he : i.emitOk
        · simp [hr, hm, ht, hd, he]
        · simp [hr, hm, ht, hd, he]
      · simp [hr, hm, ht, hd]
    · simp [hr, hm, ht]
  · intro h
    rw [sendPositionUpdate]
    rcases h with h | h
    · simp [h]
    · simp [h]

/-- C9 amended-claim witness: the concrete gate-failing attempt of the counterexample
instantiates the first part of the amended theorem. -/
theorem throttle_flag_clears_on_attempt_witness :
    (sendPositionUpdate throttleInEarly throttleSt0).1.movementChanged = false :=
  (throttle_flag_clears_on_attempt throttleInEarly throttleSt0).1 rfl rfl

/-! ### RemoteEntityReconciler -/

/-- A tracked remote entity: display name and position (the data of the mesh kept in
`playersRef`). -/
structure RemotePlayer where
  pname : String
  x : ℝ
  y : ℝ
  z : ℝ

/-- Player data as delivered by the network (the argument of `createPlayerMesh`). -/
structure PlayerData where
  pid : String
  pname : String
  x : ℝ
  y : ℝ
  z : ℝ

/-- Payload of a playerMoved event. -/
structure MoveData where
  mid : String
  x : ℝ
  y : ℝ
  z : ℝ

/-- The remote-entity registry `playersRef`, a JavaScript Map from id to mesh,
embedded as a function from ids to optional entities. -/
def Registry : Type := String → Option RemotePlayer

/-- The empty registry. -/
def emptyReg : Registry := fun _ => none

/-- Store an entity under an id (Map.set; the delete-then-set sequence of
`createPlayerMesh` collapses to a single overwrite in this model). -/
def setPlayer (reg : Registry) (pid : String) (p : RemotePlayer) : Registry :=
  fun k => if k = pid then some p else reg k

/-- The registry effect of `createPlayerMesh` (src/frontend/components/GameCanvas.tsx
lines 455-564): return unchanged when the id is the local socket id (line 457), else
remove any existing representation for the id and register a fresh mesh at the
supplied, unclamped position (lines 541 and 554). -/
def createPlayerMesh (ownId : String) (reg : Registry) (p : PlayerData) : Registry :=
  if p.pid = ownId then reg
  else setPlayer reg p.pid ⟨p.pname, p.x, p.y, p.z⟩

/-- The playerMoved handler (src/frontend/components/GameCanvas.tsx lines 781-867).
Skip events carrying the local id or its TEST- alias (line 793). For a known id,
clamp the incoming x and z to WORLD_BOUNDS, then either snap to the clamped target
or, when the x-z distance exceeds LARGE_MOVEMENT_THRESHOLD, move halfway (lines
799-832). For an unknown id, consult the getPlayerData callback result
(`lookupResult` embeds the answer of that network request): a returned record is
registered via `createPlayerMesh`; a null answer synthesizes a minimal player with
generated name and the raw event position (lines 833-866). -/
noncomputable def handlePlayerMoved (ownId : String) (reg : Registry)
    (lookupResult : Option PlayerData) (d : MoveData) : Registry :=
  if d.mid = ownId ∨ d.mid = "TEST-" ++ ownId then reg
  else
    match reg d.mid with
    | some p =>
      let validX := clampX d.x
      let validZ := clampZ d.z
      let distanceToNewPos := Real.sqrt ((validX - p.x) ^ 2 + (validZ - p.z) ^ 2)
      if distanceToNewPos > LARGE_MOVEMENT_THRESHOLD then
        setPlayer reg d.mid ⟨p.pname, p.x + (validX - p.x) * 0.5, d.y, p.z + (validZ - p.z) * 0.5⟩
      else
        setPlayer reg d.mid ⟨p.pname, validX, d.y, validZ⟩
    | none =>
      match lookupResult with
      | some pd => createPlayerMesh ownId reg pd
      | none => createPlayerMesh ownId reg ⟨d.mid, "Player-" ++ d.mid.take 4, d.x, d.y, d.z⟩

/-- C10: a playerMoved event whose id equals the local entity id is skipped, leaving
the registry (and hence every remote entity position) unchanged; the handler touches
no other state. -/
theorem playerMoved_own_id_noop (ownId : String) (reg : Registry)
    (lk : Option PlayerData) (d : MoveData) (h : d.mid = ownId) :
    handlePlayerMoved ownId reg lk d = reg := by
  rw [handlePlayerMoved.eq_def, if_pos (Or.inl h)]

/-- C10 witness: a concrete own-id event leaves the empty registry unchanged. -/
theorem playerMoved_own_id_noop_witness :
    handlePlayerMoved "me" emptyReg none ⟨"me", 3, 1, 4⟩ = emptyReg :=
  playerMoved_own_id_noop "me" emptyReg none ⟨"me", 3, 1, 4⟩ rfl

/-- C7: a playerMoved event for an id absent from the registry (and distinct from the
local id and its TEST- alias) is not dropped: when the getPlayerData lookup answers
null, a placeholder entity with generated display name (Player- followed by the first
four characters of the id) and the supplied position is registered under that id. -/
theorem playerMoved_unknown_placeholder (ownId : String) (reg : Registry) (d : MoveData)
    (hreg : reg d.mid = none) (h1 : d.mid ≠ ownId) (h2 : d.mid ≠ "TEST-" ++ ownId) :
    handlePlayerMoved ownId reg none d d.mid =
      some ⟨"Player-" ++ d.mid.take 4, d.x, d.y, d.z⟩ := by
  rw [handlePlayerMoved.eq_def, if_neg (by tauto)]
  simp only [hreg]
  rw [createPlayerMesh]
  simp only [if_neg h1]
  rw [setPlayer]
  simp

/-- C7 witness: a move event for the unknown id abcdef with the lookup answering null
registers Player-abcd at the supplied position (7, 1, 9). -/
theorem playerMoved_unknown_placeholder_witness :
    handlePlayerMoved "me" emptyReg none ⟨"abcdef", 7, 1, 9⟩ "abcdef" =
      some ⟨"Player-abcd", 7, 1, 9⟩ := by
  have h := playerMoved_unknown_placeholder "me" emptyReg ⟨"abcdef", 7, 1, 9⟩ rfl
    (by decide) (by decide)
  simpa using h

lemma clampX_bounds (x : ℝ) :
    WORLD_BOUNDS.minX ≤ clampX x ∧ clampX x ≤ WORLD_BOUNDS.maxX := by
  constructor
  · exact le_max_left _ _
  · rw [clampX]
    refine max_le ?_ (min_le_left _ _)
    norm_num [WORLD_BOUNDS]

lemma clampZ_bounds (z : ℝ) :
    WORLD_BOUNDS.minZ ≤ clampZ z ∧ clampZ z ≤ WORLD_BOUNDS.maxZ := by
  constructor
  · exact le_max_left _ _
  · rw [clampZ]
    refine max_le ?_ (min_le_left _ _)
    norm_num [WORLD_BOUNDS]

lemma clampX_eq_self {x : ℝ} (h1 : WORLD_BOUNDS.minX ≤ x) (h2 : x ≤ WORLD_BOUNDS.maxX) :
    clampX x = x := by
  rw [clampX, min_eq_right h2, max_eq_right h1]

lemma clampZ_eq_self {z : ℝ} (h1 : WORLD_BOUNDS.minZ ≤ z) (h2 : z ≤ WORLD_BOUNDS.maxZ) :
    clampZ z = z := by
  rw [clampZ, min_eq_right h2, max_eq_right h1]

/-- C2: for a playerMoved event targeting a known remote entity, with clamped target
(validX, validZ): when the x-z distance from the current position exceeds
LARGE_MOVEMENT_THRESHOLD the entity is placed at the exact midpoint
(current + 0.5 times the difference on x and z, with y taken from the event), and
when the distance is at most the threshold it snaps directly to the clamped target. -/
theorem playerMoved_smoothing (ownId : String) (reg : Registry) (lk : Option PlayerData)
    (d : MoveData) (p : RemotePlayer)
    (hreg : reg d.mid = some p) (h1 : d.mid ≠ ownId) (h2 : d.mid ≠ "TEST-" ++ ownId) :
    (Real.sqrt ((clampX d.x - p.x) ^ 2 + (clampZ d.z - p.z) ^ 2) > LARGE_MOVEMENT_THRESHOLD →
      handlePlayerMoved ownId reg lk d d.mid =
        some ⟨p.pname, p.x + (clampX d.x - p.x) * 0.5, d.y, p.z + (clampZ d.z - p.z) * 0.5⟩) ∧
    (Real.sqrt ((clampX d.x - p.x) ^ 2 + (clampZ d.z - p.z) ^ 2) ≤ LARGE_MOVEMENT_THRESHOLD →
      handlePlayerMoved ownId reg lk d d.mid =
        some ⟨p.pname, clampX d.x, d.y, clampZ d.z⟩) := by
  constructor
  · intro hfar
    rw [handlePlayerMoved.eq_def, if_neg (by tauto)]
    simp only [hreg]
    rw [if_pos hfar, setPlayer]
    simp
  · intro hnear
    rw [handlePlayerMoved.eq_def, if_neg (by tauto)]
    simp only [hreg]
    rw [if_neg (not_lt.mpr hnear), setPlayer]
    simp

/-- Witness registry holding the remote entity p1 named Bob at position (0, 1, 0). -/
noncomputable def regBob : Registry := setPlayer emptyReg "p1" ⟨"Bob", 0, 1, 0⟩

lemma regBob_p1 : regBob "p1" = some ⟨"Bob", 0, 1, 0⟩ := by
  rw [regBob, setPlayer]
  simp

lemma sqrt_hundred : Real.sqrt 100 = 10 := by
  rw [show (100 : ℝ) = 10 ^ 2 by norm_num, Real.sqrt_sq (by norm_num : (0:ℝ) ≤ 10)]

/-- C2 witness: a 10-unit move (target (10, 1, 0) against current (0, 1, 0)) lands the
entity at the 5-unit midpoint (5, 1, 0). -/
theorem playerMoved_smoothing_witness :
    handlePlayerMoved "me" regBob none ⟨"p1", 10, 1, 0⟩ "p1" = some ⟨"Bob", 5, 1, 0⟩ := by
  have hcx : clampX (10 : ℝ) = 10 := clampX_eq_self (by norm_num [WORLD_BOUNDS]) (by norm_num [WORLD_BOUNDS])
  have hcz : clampZ (0 : ℝ) = 0 := clampZ_eq_self (by norm_num [WORLD_BOUNDS]) (by norm_num [WORLD_BOUNDS])
  have hfar : Real.sqrt ((clampX (10:ℝ) - (0:ℝ)) ^ 2 + (clampZ (0:ℝ) - (0:ℝ)) ^ 2) >
      LARGE_MOVEMENT_THRESHOLD := by
    rw [hcx, hcz, show ((10:ℝ) - 0) ^ 2 + ((0:ℝ) - 0) ^ 2 = 100 by norm_num, sqrt_hundred]
    norm_num [LARGE_MOVEMENT_THRESHOLD]
  have h := (playerMoved_smoothing "me" regBob none ⟨"p1", 10, 1, 0⟩ ⟨"Bob", 0, 1, 0⟩
    regBob_p1 (by decide) (by decide)).1 hfar
  rw [h, hcx, hcz]
  norm_num

/-- C6 counterexample: a playerMoved event for an unknown id carrying x = 1000 makes
the null-lookup path synthesize the placeholder at the raw, unclamped position, so
the stored remote-entity position violates WorldBounds (1000 exceeds maxX = 50). -/
theorem playerMoved_placeholder_out_of_bounds :
    handlePlayerMoved "me" emptyReg none ⟨"ab", 1000, 1, 0⟩ "ab" =
      some ⟨"Player-ab", 1000, 1, 0⟩ ∧
    ¬ ((1000 : ℝ) ≤ WORLD_BOUNDS.maxX) := by
  constructor
  · rw [handlePlayerMoved.eq_def, if_neg (by decide)]
    simp only [emptyReg]
    rw [createPlayerMesh]
    simp only [if_neg (by decide : ¬ ("ab" : String) = "me")]
    rw [setPlayer]
    simp only [if_pos rfl, eq_self_iff_true, if_true, Option.some.injEq,
      RemotePlayer.mk.injEq]
    refine ⟨by decide, trivial, trivial, trivial⟩
  · norm_num [WORLD_BOUNDS]

/-- C6 (amended): for a playerMoved event targeting a known remote entity whose
current position is inside WorldBounds, the incoming position is clamped before use
and the stored position after processing (snap or midpoint) remains inside
WorldBounds; the unknown-id placeholder path instead stores the raw supplied
position, which can lie outside the bounds. -/
theorem playerMoved_known_stays_in_bounds (ownId : String) (reg : Registry)
    (lk : Option PlayerData) (d : MoveData) (p q : RemotePlayer)
    (hreg : reg d.mid = some p) (h1 : d.mid ≠ ownId) (h2 : d.mid ≠ "TEST-" ++ ownId)
    (hpx1 : WORLD_BOUNDS.minX ≤ p.x) (hpx2 : p.x ≤ WORLD_BOUNDS.maxX)
    (hpz1 : WORLD_BOUNDS.minZ ≤ p.z) (hpz2 : p.z ≤ WORLD_BOUNDS.maxZ)
    (hq : handlePlayerMoved ownId reg lk d d.mid = some q) :
    WORLD_BOUNDS.minX ≤ q.x ∧ q.x ≤ WORLD_BOUNDS.maxX ∧
    WORLD_BOUNDS.minZ ≤ q.z ∧ q.z ≤ WORLD_BOUNDS.maxZ := by
  rw [handlePlayerMoved.eq_def, if_neg (by tauto)] at hq
  simp only [hreg] at hq
  have hbx := clampX_bounds d.x
  have hbz := clampZ_bounds d.z
  by_cases hfar : Real.sqrt ((clampX d.x - p.x) ^ 2 + (clampZ d.z - p.z) ^ 2) >
      LARGE_MOVEMENT_THRESHOLD
  · rw [if_pos hfar, setPlayer] at hq
    simp only [eq_self_iff_true, if_true, Option.some.injEq] at hq
    subst hq
    refine ⟨?_, ?_, ?_, ?_⟩ <;> simp only [] <;> nlinarith [hbx.1, hbx.2, hbz.1, hbz.2]
  · rw [if_neg hfar, setPlayer] at hq
    simp only [eq_self_iff_true, if_true, Option.some.injEq] at hq
    subst hq
    exact ⟨hbx.1, hbx.2, hbz.1, hbz.2⟩

lemma sqrt_nine : Real.sqrt 9 = 3 := by
  rw [show (9 : ℝ) = 3 ^ 2 by norm_num, Real.sqrt_sq (by norm_num : (0:ℝ) ≤ 3)]

/-- C6 amended-claim witness: a 3-unit move of the known entity p1 from (0, 1, 0)
snaps to (3, 1, 0), and the theorem yields that the stored position is in bounds. -/
theorem playerMoved_known_stays_in_bounds_witness :
    WORLD_BOUNDS.minX ≤ (3 : ℝ) ∧ (3 : ℝ) ≤ WORLD_BOUNDS.maxX ∧
    WORLD_BOUNDS.minZ ≤ (0 : ℝ) ∧ (0 : ℝ) ≤ WORLD_BOUNDS.maxZ := by
  have hcx : clampX (3 : ℝ) = 3 := clampX_eq_self (by norm_num [WORLD_BOUNDS]) (by norm_num [WORLD_BOUNDS])
  have hcz : clampZ (0 : ℝ) = 0 := clampZ_eq_self (by norm_num [WORLD_BOUNDS]) (by norm_num [WORLD_BOUNDS])
  have hnear : Real.sqrt ((clampX (3:ℝ) - (0:ℝ)) ^ 2 + (clampZ (0:ℝ) - (0:ℝ)) ^ 2) ≤
      LARGE_MOVEMENT_THRESHOLD := by
    rw [hcx, hcz, show ((3:ℝ) - 0) ^ 2 + ((0:ℝ) - 0) ^ 2 = 9 by norm_num, sqrt_nine]
    norm_num [LARGE_MOVEMENT_THRESHOLD]
  have hq : handlePlayerMoved "me" regBob none ⟨"p1", 3, 1, 0⟩ "p1" =
      some ⟨"Bob", 3, 1, 0⟩ := by
    rw [handlePlayerMoved.eq_def, if_neg (by decide)]
    simp only [regBob_p1]
    rw [if_neg (not_lt.mpr hnear), setPlayer]
    simp only [if_pos rfl, eq_self_iff_true, if_true, Option.some.injEq]
    rw [hcx, hcz]
  have := playerMoved_known_stays_in_bounds "me" regBob none ⟨"p1", 3, 1, 0⟩
    ⟨"Bob", 0, 1, 0⟩ ⟨"Bob", 3, 1, 0⟩ regBob_p1 (by decide) (by decide)
    (by norm_num [WORLD_BOUNDS]) (by norm_num [WORLD_BOUNDS])
    (by norm_num [WORLD_BOUNDS]) (by norm_num [WORLD_BOUNDS]) hq
  simpa using this

/-! ### AnomalyGuard -/

/-- One entry of the position history: `{x, z, time}` (GameCanvas push sites). -/
structure Sample where
  x : ℝ
  z : ℝ
  time : ℝ

/-- State touched by the anomaly guard: the `positionHistory` buffer and the live
player position `playerRef.current.position`. -/
structure GuardState where
  history : List Sample
  posX : ℝ
  posY : ℝ
  posZ : ℝ

/-- Body of `detectAnomalousMovement` once the two most recent samples are in hand
(src/components/GameCanvas.tsx lines 694-738): compute the x-z distance and the time
difference, and when the implied speed exceeds ANOMALOUS_SPEED_THRESHOLD and the
distance exceeds `maxAllowedDistance = MOVEMENT_SPEED * 2`, cap the latest sample at
that distance from the previous sample along the same direction, clamp the result to
WORLD_BOUNDS, write it to the live position, and replace the last history entry. -/
noncomputable def anomalyCorrect (s : GuardState) (latest previous : Sample)
    (rest : List Sample) : GuardState :=
  let distance := Real.sqrt ((latest.x - previous.x) ^ 2 + (latest.z - previous.z) ^ 2)
  let timeDiff := (latest.time - previous.time) / 1000
  if timeDiff > 0 then
    if distance / timeDiff > ANOMALOUS_SPEED_THRESHOLD then
      let maxAllowedDistance := MOVEMENT_SPEED * 2
      if distance > maxAllowedDistance then
        let dirX := (latest.x - previous.x) / distance
        let dirZ := (latest.z - previous.z) / distance
        let cappedX := previous.x + dirX * maxAllowedDistance
        let cappedZ := previous.z + dirZ * maxAllowedDistance
        let boundedX := clampX cappedX
        let boundedZ := clampZ cappedZ
        { history := (⟨boundedX, boundedZ, latest.time⟩ :: previous :: rest).reverse,
          posX := boundedX, posY := s.posY, posZ := boundedZ }
      else s
    else s
  else s

/-- The `detectAnomalousMovement` function (src/components/GameCanvas.tsx lines
690-739, identical copy at src/frontend/components/GameCanvas.tsx 1322-1371). The
source reads `history[length-1]` and `history[length-2]`; its only call site (line
682) guards `length >= 2`, so the under-two-entries branch returning the state
unchanged is never reached in the program. -/
noncomputable def detectAnomalousMovement (s : GuardState) : GuardState :=
  match s.history.reverse with
  | latest :: previous :: rest => anomalyCorrect s latest previous rest
  | _ => s

lemma detectAnomalousMovement_eq {s : GuardState} {latest previous : Sample}
    {rest : List Sample} (hrev : s.history.reverse = latest :: previous :: rest) :
    detectAnomalousMovement s = anomalyCorrect s latest previous rest := by
  rw [detectAnomalousMovement.eq_def, hrev]

lemma clamp_abs_le (lo hi p c : ℝ) (h1 : lo ≤ p) (h2 : p ≤ hi) :
    |max lo (min hi c) - p| ≤ |c - p| := by
  rcases le_total c lo with hc | hc
  · rw [min_eq_right (le_trans hc (le_trans h1 h2)), max_eq_left hc,
      abs_of_nonpos (by linarith), abs_of_nonpos (by linarith)]
    linarith
  · rcases le_total hi c with hc2 | hc2
    · rw [min_eq_left hc2, max_eq_right (le_trans h1 h2),
        abs_of_nonneg (by linarith), abs_of_nonneg (by linarith)]
      linarith
    · rw [min_eq_right hc2, max_eq_right hc]

/-- The corrected sample produced by the guard lies within `MOVEMENT_SPEED * 2` of
the previous sample, provided the previous sample is inside the world bounds. -/
lemma corrected_dist_le (px pz lx lz : ℝ)
    (hpx1 : WORLD_BOUNDS.minX ≤ px) (hpx2 : px ≤ WORLD_BOUNDS.maxX)
    (hpz1 : WORLD_BOUNDS.minZ ≤ pz) (hpz2 : pz ≤ WORLD_BOUNDS.maxZ)
    (hD : Real.sqrt ((lx - px) ^ 2 + (lz - pz) ^ 2) > MOVEMENT_SPEED * 2) :
    Real.sqrt
      ((clampX (px + (lx - px) / Real.sqrt ((lx - px) ^ 2 + (lz - pz) ^ 2) *
          (MOVEMENT_SPEED * 2)) - px) ^ 2 +
       (clampZ (pz + (lz - pz) / Real.sqrt ((lx - px) ^ 2 + (lz - pz) ^ 2) *
          (MOVEMENT_SPEED * 2)) - pz) ^ 2) ≤ MOVEMENT_SPEED * 2 := by
  have hM : (0 : ℝ) < MOVEMENT_SPEED * 2 := by norm_num [MOVEMENT_SPEED]
  have hDpos : 0 < Real.sqrt ((lx - px) ^ 2 + (lz - pz) ^ 2) := lt_trans hM hD
  have hD2 : Real.sqrt ((lx - px) ^ 2 + (lz - pz) ^ 2) ^ 2 = (lx - px) ^ 2 + (lz - pz) ^ 2 :=
    Real.sq_sqrt (by positivity)
  have hax : |clampX (px + (lx - px) / Real.sqrt ((lx - px) ^ 2 + (lz - pz) ^ 2) *
      (MOVEMENT_SPEED * 2)) - px| ≤
      |(lx - px) / Real.sqrt ((lx - px) ^ 2 + (lz - pz) ^ 2) * (MOVEMENT_SPEED * 2)| := by
    have h := clamp_abs_le WORLD_BOUNDS.minX WORLD_BOUNDS.maxX px
      (px + (lx - px) / Real.sqrt ((lx - px) ^ 2 + (lz - pz) ^ 2) * (MOVEMENT_SPEED * 2))
      hpx1 hpx2
    rw [clampX]
    simpa using h
  have haz : |clampZ (pz + (lz - pz) / Real.sqrt ((lx - px) ^ 2 + (lz - pz) ^ 2) *
      (MOVEMENT_SPEED * 2)) - pz| ≤
      |(lz - pz) / Real.sqrt ((lx - px) ^ 2 + (lz - pz) ^ 2) * (MOVEMENT_SPEED * 2)| := by
    have h := clamp_abs_le WORLD_BOUNDS.minZ WORLD_BOUNDS.maxZ pz
      (pz + (lz - pz) / Real.sqrt ((lx - px) ^ 2 + (lz - pz) ^ 2) * (MOVEMENT_SPEED * 2))
      hpz1 hpz2
    rw [clampZ]
    simpa using h
  have hsx : (clampX (px + (lx - px) / Real.sqrt ((lx - px) ^ 2 + (lz - pz) ^ 2) *
      (MOVEMENT_SPEED * 2)) - px) ^ 2 ≤
      ((lx - px) / Real.sqrt ((lx - px) ^ 2 + (lz - pz) ^ 2) * (MOVEMENT_SPEED * 2)) ^ 2 := by
    rw [← sq_abs (clampX _ - px), ← sq_abs ((lx - px) / _ * _)]
    exact pow_le_pow_left₀ (abs_nonneg _) hax 2
  have hsz : (clampZ (pz + (lz - pz) / Real.sqrt ((lx - px) ^ 2 + (lz - pz) ^ 2) *
      (MOVEMENT_SPEED * 2)) - pz) ^ 2 ≤
      ((lz - pz) / Real.sqrt ((lx - px) ^ 2 + (lz - pz) ^ 2) * (MOVEMENT_SPEED * 2)) ^ 2 := by
    rw [← sq_abs (clampZ _ - pz), ← sq_abs ((lz - pz) / _ * _)]
    exact pow_le_pow_left₀ (abs_nonneg _) haz 2
  have hval : ((lx - px) / Real.sqrt ((lx - px) ^ 2 + (lz - pz) ^ 2) * (MOVEMENT_SPEED * 2)) ^ 2 +
      ((lz - pz) / Real.sqrt ((lx - px) ^ 2 + (lz - pz) ^ 2) * (MOVEMENT_SPEED * 2)) ^ 2 =
      (MOVEMENT_SPEED * 2) ^ 2 := by
    have hne : (lx - px) ^ 2 + (lz - pz) ^ 2 ≠ 0 := by
      have h0 : 0 < Real.sqrt ((lx - px) ^ 2 + (lz - pz) ^ 2) ^ 2 := pow_pos hDpos 2
      rw [hD2] at h0
      exact ne_of_gt h0
    have hsne : Real.sqrt ((lx - px) ^ 2 + (lz - pz) ^ 2) ≠ 0 := ne_of_gt hDpos
    field_simp
    ring
  have hsum : (clampX (px + (lx - px) / Real.sqrt ((lx - px) ^ 2 + (lz - pz) ^ 2) *
      (MOVEMENT_SPEED * 2)) - px) ^ 2 +
      (clampZ (pz + (lz - pz) / Real.sqrt ((lx - px) ^ 2 + (lz - pz) ^ 2) *
      (MOVEMENT_SPEED * 2)) - pz) ^ 2 ≤ (MOVEMENT_SPEED * 2) ^ 2 := by
    rw [← hval]
    exact add_le_add hsx hsz
  have hfin := Real.sqrt_le_sqrt hsum
  rwa [Real.sqrt_sq hM.le] at hfin

/-- C3: the anomaly guard is idempotent. For any guard state whose two most recent
history samples are `previous` and `latest` with `previous` inside WorldBounds (as
every sample the program ever stores is: the push site stores only bounds-clamped
positions and the guard itself stores only bounds-clamped corrections, so an
already-corrected pair always satisfies this), running `detectAnomalousMovement`
twice equals running it once: the re-run changes neither the live position nor any
history entry. -/
theorem anomalyGuard_idempotent (s : GuardState) (latest previous : Sample)
    (rest : List Sample)
    (hrev : s.history.reverse = latest :: previous :: rest)
    (hpx1 : WORLD_BOUNDS.minX ≤ previous.x) (hpx2 : previous.x ≤ WORLD_BOUNDS.maxX)
    (hpz1 : WORLD_BOUNDS.minZ ≤ previous.z) (hpz2 : previous.z ≤ WORLD_BOUNDS.maxZ) :
    detectAnomalousMovement (detectAnomalousMovement s) = detectAnomalousMovement s := by
  have hdet := detectAnomalousMovement_eq hrev
  by_cases h1 : (latest.time - previous.time) / 1000 > 0
  · by_cases h2 : Real.sqrt ((latest.x - previous.x) ^ 2 + (latest.z - previous.z) ^ 2) /
        ((latest.time - previous.time) / 1000) > ANOMALOUS_SPEED_THRESHOLD
    · by_cases h3 : Real.sqrt ((latest.x - previous.x) ^ 2 + (latest.z - previous.z) ^ 2) >
          MOVEMENT_SPEED * 2
      · -- the correction fires: the corrected state is a fixed point of the guard
        have hs : anomalyCorrect s latest previous rest =
            { history := (⟨clampX (previous.x + (latest.x - previous.x) /
                  Real.sqrt ((latest.x - previous.x) ^ 2 + (latest.z - previous.z) ^ 2) *
                  (MOVEMENT_SPEED * 2)),
                clampZ (previous.z + (latest.z - previous.z) /
                  Real.sqrt ((latest.x - previous.x) ^ 2 + (latest.z - previous.z) ^ 2) *
                  (MOVEMENT_SPEED * 2)), latest.time⟩ :: previous :: rest).reverse,
              posX := clampX (previous.x + (latest.x - previous.x) /
                  Real.sqrt ((latest.x - previous.x) ^ 2 + (latest.z - previous.z) ^ 2) *
                  (MOVEMENT_SPEED * 2)),
              posY := s.posY,
              posZ := clampZ (previous.z + (latest.z - previous.z) /
                  Real.sqrt ((latest.x - previous.x) ^ 2 + (latest.z - previous.z) ^ 2) *
                  (MOVEMENT_SPEED * 2)) } := by
          simp only [anomalyCorrect]
          rw [if_pos h1, if_pos h2, if_pos h3]
        have hle := corrected_dist_le previous.x previous.z latest.x latest.z
          hpx1 hpx2 hpz1 hpz2 h3
        rw [hdet, hs]
        have hrev2 : (anomalyCorrect s latest previous rest).history.reverse =
            (⟨clampX (previous.x + (latest.x - previous.x) /
                Real.sqrt ((latest.x - previous.x) ^ 2 + (latest.z - previous.z) ^ 2) *
                (MOVEMENT_SPEED * 2)),
              clampZ (previous.z + (latest.z - previous.z) /
                Real.sqrt ((latest.x - previous.x) ^ 2 + (latest.z - previous.z) ^ 2) *
                (MOVEMENT_SPEED * 2)), latest.time⟩ : Sample) :: previous :: rest := by
          rw [hs]
          exact List.reverse_reverse _
        rw [← hs, detectAnomalousMovement_eq hrev2, hs]
        simp only [anomalyCorrect]
        rw [if_pos h1]
        split_ifs with h2b h3b
        · exact absurd h3b (not_lt.mpr hle)
        · rfl
        · rfl
      · have hs : anomalyCorrect s latest previous rest = s := by
          simp only [anomalyCorrect]
          rw [if_pos h1, if_pos h2, if_neg h3]
        rw [hdet, hs, hdet, hs]
    · have hs : anomalyCorrect s latest previous rest = s := by
        simp only [anomalyCorrect]
        rw [if_pos h1, if_neg h2]
      rw [hdet, hs, hdet, hs]
  · have hs : anomalyCorrect s latest previous rest = s := by
      simp only [anomalyCorrect]
      rw [if_neg h1]
    rw [hdet, hs, hdet, hs]

/-- Witness guard state: previous sample (0,0) at time 0, latest sample (10,0) at
time 1000, live position (10, 1, 0); the implied speed of 10 units per second
triggers a correction. -/
noncomputable def guardS0 : GuardState := ⟨[⟨0, 0, 0⟩, ⟨10, 0, 1000⟩], 10, 1, 0⟩

/-- C3 witness: the guard applied twice to the concrete anomalous state equals the
guard applied once. -/
theorem anomalyGuard_idempotent_witness :
    detectAnomalousMovement (detectAnomalousMovement guardS0) =
      detectAnomalousMovement guardS0 :=
  anomalyGuard_idempotent guardS0 ⟨10, 0, 1000⟩ ⟨0, 0, 0⟩ [] rfl
    (by norm_num [WORLD_BOUNDS]) (by norm_num [WORLD_BOUNDS])
    (by norm_num [WORLD_BOUNDS]) (by norm_num [WORLD_BOUNDS])

/-! ### MovementIntegrator -/

/-- Math.atan2(y, x), embedded as the argument of the complex number x + y i. Used
only for the facing-direction updates, which no claim constrains numerically. -/
noncomputable def atan2 (y x : ℝ) : ℝ := Complex.arg ⟨x, y⟩

/-- Jump force of the frontend GameCanvas, `const JUMP_FORCE = 0.3` (line 108). -/
noncomputable def JUMP_FORCE : ℝ := 0.3

/-- Key state read by the frontend integrator; each field merges a letter key with
its arrow-key synonym (`keysPressed.current.w || keysPressed.current.ArrowUp` and so
on, frontend GameCanvas lines 1282-1285). -/
structure CanvasKeys where
  forwardKey : Bool
  backwardKey : Bool
  rightKey : Bool
  leftKey : Bool

/-- Local entity state touched by the frontend integrator: position, facing
rotation, and the jump references `isJumping` and `jumpVelocity`. -/
structure CanvasState where
  x : ℝ
  y : ℝ
  z : ℝ
  rotY : ℝ
  isJumping : Bool
  jumpVelocity : ℝ

/-- The `updatePlayerMovement` of src/frontend/components/GameCanvas.tsx (lines
1261-1319): build forward and right vectors by rotating the camera yaw, sum the
active intents, normalize when the summed vector is nonzero (its y component is
identically zero, so its THREE length is the x-z norm), face the movement
direction, scale by MOVEMENT_SPEED, add to the position with no bounds clamping,
then apply the jump kinematics to y. The deltaTime computed at lines 1264-1266 is
never used by the movement maths and is omitted. -/
noncomputable def updatePlayerMovementCanvas (cameraAngle : ℝ) (k : CanvasKeys)
    (st : CanvasState) : CanvasState :=
  let forwardX := Real.sin cameraAngle
  let forwardZ := Real.cos cameraAngle
  let rightX := Real.sin (cameraAngle + Real.pi / 2)
  let rightZ := Real.cos (cameraAngle + Real.pi / 2)
  let mx1 := if k.forwardKey then 0 - forwardX else 0
  let mz1 := if k.forwardKey then 0 - forwardZ else 0
  let mx2 := if k.backwardKey then mx1 + forwardX else mx1
  let mz2 := if k.backwardKey then mz1 + forwardZ else mz1
  let mx3 := if k.rightKey then mx2 + rightX else mx2
  let mz3 := if k.rightKey then mz2 + rightZ else mz2
  let mx4 := if k.leftKey then mx3 - rightX else mx3
  let mz4 := if k.leftKey then mz3 - rightZ else mz3
  let len := Real.sqrt (mx4 ^ 2 + mz4 ^ 2)
  let mx5 := if len > 0 then mx4 / len else mx4
  let mz5 := if len > 0 then mz4 / len else mz4
  let rotY2 := if len > 0 then atan2 mx5 mz5 else st.rotY
  let x2 := st.x + mx5 * MOVEMENT_SPEED
  let z2 := st.z + mz5 * MOVEMENT_SPEED
  let y2 := if st.isJumping then
      (if st.y + st.jumpVelocity ≤ 1 then 1 else st.y + st.jumpVelocity)
    else st.y
  let isJ2 := if st.isJumping then
      (if st.y + st.jumpVelocity ≤ 1 then false else true)
    else st.isJumping
  let v2 := if st.isJumping then
      (if st.y + st.jumpVelocity ≤ 1 then 0 else st.jumpVelocity - GRAVITY)
    else st.jumpVelocity
  ⟨x2, y2, z2, rotY2, isJ2, v2⟩

/-- Keys for the C1 failing input: only the backward key is held. -/
def c1Keys : CanvasKeys := ⟨false, true, false, false⟩

/-- C1 failing input state: the local player standing exactly on the far z boundary
(z = maxZ = 50) at ground height. -/
def c1Start : CanvasState := ⟨0, 1, 50, 0, false, 0⟩

lemma canvas_c1_eval :
    (updatePlayerMovementCanvas 0 c1Keys c1Start).z = 50 + 1 * MOVEMENT_SPEED := by
  rw [updatePlayerMovementCanvas]
  simp only [c1Keys, c1Start, Bool.false_eq_true, if_false, if_true, Real.sin_zero,
    Real.cos_zero]
  norm_num [Real.sqrt_one]

/-- C1: with the camera at angle 0 and the backward key held, one integrator tick
from the boundary position (0, 1, 50) moves the local player to z = 50.15, strictly
outside WorldBounds (maxZ = 50): the frontend `updatePlayerMovement` applies the
movement step with no bounds clamping. -/
theorem canvasMovement_escapes_bounds :
    (updatePlayerMovementCanvas 0 c1Keys c1Start).z = 50.15 ∧
    WORLD_BOUNDS.maxZ < (updatePlayerMovementCanvas 0 c1Keys c1Start).z := by
  have h := canvas_c1_eval
  rw [MOVEMENT_SPEED] at h
  constructor
  · rw [h]
    norm_num
  · rw [h]
    norm_num [WORLD_BOUNDS]

lemma normalized_step_le (a b s : ℝ) :
    ((if Real.sqrt (a ^ 2 + b ^ 2) > 0 then a / Real.sqrt (a ^ 2 + b ^ 2) else a) * s) ^ 2 +
    ((if Real.sqrt (a ^ 2 + b ^ 2) > 0 then b / Real.sqrt (a ^ 2 + b ^ 2) else b) * s) ^ 2 ≤
    s ^ 2 := by
  by_cases hl : Real.sqrt (a ^ 2 + b ^ 2) > 0
  · rw [if_pos hl, if_pos hl]
    have hab : 0 < a ^ 2 + b ^ 2 := Real.sqrt_pos.mp hl
    have hne : Real.sqrt (a ^ 2 + b ^ 2) ≠ 0 := ne_of_gt hl
    have hne2 : a ^ 2 + b ^ 2 ≠ 0 := ne_of_gt hab
    have hsq : Real.sqrt (a ^ 2 + b ^ 2) ^ 2 = a ^ 2 + b ^ 2 := Real.sq_sqrt hab.le
    have heq : (a / Real.sqrt (a ^ 2 + b ^ 2) * s) ^ 2 +
        (b / Real.sqrt (a ^ 2 + b ^ 2) * s) ^ 2 = s ^ 2 := by
      field_simp
      ring
    exact le_of_eq heq
  · rw [if_neg hl, if_neg hl]
    have hzero : Real.sqrt (a ^ 2 + b ^ 2) = 0 :=
      le_antisymm (not_lt.mp hl) (Real.sqrt_nonneg _)
    have h0 : a ^ 2 + b ^ 2 ≤ 0 := Real.sqrt_eq_zero'.mp hzero
    have ha : a ^ 2 = 0 := le_antisymm (by nlinarith [sq_nonneg b]) (sq_nonneg a)
    have hb : b ^ 2 = 0 := le_antisymm (by nlinarith [sq_nonneg a]) (sq_nonneg b)
    rw [mul_pow, mul_pow, ha, hb]
    nlinarith [sq_nonneg s]

/-- C8 (amended, part proved here): the frontend GameCanvas integrator normalizes
the summed intent vector before scaling, so for every camera angle, key combination
and state the squared per-tick horizontal displacement is at most
MOVEMENT_SPEED squared, that is, the displacement magnitude never exceeds the
single-axis speed. (The usePlayerMovement hook does not normalize; see the
counterexample theorem.) -/
theorem canvasMovement_disp_le_speed (cameraAngle : ℝ) (k : CanvasKeys)
    (st : CanvasState) :
    ((updatePlayerMovementCanvas cameraAngle k st).x - st.x) ^ 2 +
    ((updatePlayerMovementCanvas cameraAngle k st).z - st.z) ^ 2 ≤
    MOVEMENT_SPEED ^ 2 := by
  simp only [updatePlayerMovementCanvas, add_sub_cancel_left]
  exact normalized_step_le _ _ _

/-- JavaScript truncation toward zero, for the remainder operator. -/
noncomputable def jsTrunc (x : ℝ) : ℝ := if 0 ≤ x then ((⌊x⌋ : ℤ) : ℝ) else ((⌈x⌉ : ℤ) : ℝ)

/-- The JavaScript % operator on numbers: remainder with the sign of the dividend. -/
noncomputable def jsMod (a b : ℝ) : ℝ := a - b * jsTrunc (a / b)

/-- Modelled from the spec: the constants module imported by
src/frontend/hooks/usePlayerMovement.ts (FIXED_SPEED_FACTOR, GRAVITY, JUMP_FORCE,
PLAYER_DEFAULT_Y from `../constants`) and the WORLD_BOUNDS of
`../game/world/WorldManager` are not under src/, so the hook is parametrized over
them; spec section 6 lists MOVEMENT_SPEED, GRAVITY, JUMP_FORCE and the WorldBounds
rectangle as the configuration surface. -/
structure HookConsts where
  F : ℝ
  gravity : ℝ
  jumpForce : ℝ
  defaultY : ℝ
  minX : ℝ
  maxX : ℝ
  minZ : ℝ
  maxZ : ℝ

/-- The input state consumed by the hook (usePlayerInput intents). -/
structure HookInput where
  moveForward : Bool
  moveBackward : Bool
  moveLeft : Bool
  moveRight : Bool
  attemptJump : Bool

/-- Local entity state touched by the hook: position, facing rotation, jump
references and the movementOccurred flag. -/
structure HookState where
  x : ℝ
  y : ℝ
  z : ℝ
  rotY : ℝ
  isJumping : Bool
  jumpVelocity : ℝ
  movementOccurred : Bool

/-- The `updatePlayerMovement` of src/frontend/hooks/usePlayerMovement.ts (lines
33-137): jump state machine first; then per-intent movement contributions of the
form (sin(angle) * 2) * (F / 2) summed without normalization; world-bounds clamping
of the new position; and smoothed rotation toward the movement heading using the
JavaScript remainder. -/
noncomputable def updatePlayerMovementHook (C : HookConsts) (cameraAngle : ℝ)
    (inp : HookInput) (st : HookState) : HookState :=
  let startJump := inp.attemptJump && !st.isJumping
  let isJa := if startJump then true else st.isJumping
  let va := if startJump then C.jumpForce else st.jumpVelocity
  let pca := startJump
  let ya := if isJa then (if st.y + va ≤ C.defaultY then C.defaultY else st.y + va) else st.y
  let isJb := if isJa then (if st.y + va ≤ C.defaultY then false else true) else isJa
  let vb := if isJa then (if st.y + va ≤ C.defaultY then 0 else va - C.gravity) else va
  let pcb := if isJa then true else pca
  let speedHalf := C.F / 2
  let mx1 := if inp.moveForward then 0 - (Real.sin cameraAngle * 2) * speedHalf else 0
  let mz1 := if inp.moveForward then 0 - (Real.cos cameraAngle * 2) * speedHalf else 0
  let mx2 := if inp.moveBackward then mx1 + (Real.sin cameraAngle * 2) * speedHalf else mx1
  let mz2 := if inp.moveBackward then mz1 + (Real.cos cameraAngle * 2) * speedHalf else mz1
  let mx3 := if inp.moveLeft then mx2 - (Real.sin (cameraAngle + Real.pi / 2) * 2) * speedHalf else mx2
  let mz3 := if inp.moveLeft then mz2 - (Real.cos (cameraAngle + Real.pi / 2) * 2) * speedHalf else mz2
  let mx4 := if inp.moveRight then mx3 + (Real.sin (cameraAngle + Real.pi / 2) * 2) * speedHalf else mx3
  let mz4 := if inp.moveRight then mz3 + (Real.cos (cameraAngle + Real.pi / 2) * 2) * speedHalf else mz3
  if mx4 ≠ 0 ∨ mz4 ≠ 0 then
    let newX := st.x + mx4
    let newZ := st.z + mz4
    let boundedX := max C.minX (min C.maxX newX)
    let boundedZ := max C.minZ (min C.maxZ newZ)
    let moved := st.x ≠ boundedX ∨ st.z ≠ boundedZ
    let x2 := if moved then boundedX else st.x
    let z2 := if moved then boundedZ else st.z
    let pcc := if moved then true else pcb
    let moveAngle := atan2 mx4 mz4
    let rotationDiff := moveAngle - st.rotY
    let normalizedDiff := jsMod (rotationDiff + Real.pi) (Real.pi * 2) - Real.pi
    let rotationStep := normalizedDiff * 0.3 / 2
    let oc := |rotationStep| > 0.001
    let rot2 := if oc then st.rotY + rotationStep else st.rotY
    ⟨x2, ya, z2, rot2, isJb, vb, pcc || decide oc⟩
  else
    ⟨st.x, ya, st.z, st.rotY, isJb, vb, pcb⟩

/-- Modelled from the spec: hook constants instantiated with the values the spec and
the GameCanvas files give them (MOVEMENT_SPEED 0.15, GRAVITY 0.015, JUMP_FORCE 0.3,
ground height 1, WorldBounds -50..50). -/
noncomputable def hookConsts : HookConsts := ⟨0.15, 0.015, 0.3, 1, -50, 50, -50, 50⟩

/-- Hook input for the C8 counterexample: forward and left held simultaneously. -/
def hookInFL : HookInput := ⟨true, false, true, false, false⟩

/-- Hook start state for the C8 counterexample: origin, grounded. -/
def hookStart : HookState := ⟨0, 1, 0, 0, false, 0, false⟩

lemma hook_diag_eval :
    (updatePlayerMovementHook hookConsts 0 hookInFL hookStart).x = -0.15 ∧
    (updatePlayerMovementHook hookConsts 0 hookInFL hookStart).z = -0.15 := by
  rw [updatePlayerMovementHook]
  simp only [hookConsts, hookInFL, hookStart, Bool.false_eq_true, if_false, if_true,
    Bool.and_false, Bool.and_true, Bool.not_false, Bool.not_true, Real.sin_zero,
    Real.cos_zero, zero_add, Real.sin_pi_div_two, Real.cos_pi_div_two]
  norm_num [min_def, max_def]

/-- C8 counterexample: the usePlayerMovement hook sums the per-intent contributions
without normalizing, so with the camera at angle 0 and forward plus left held, one
tick from the origin displaces the player by (-0.15, -0.15), whose squared magnitude
0.045 exceeds MOVEMENT_SPEED squared (0.0225): the per-tick displacement magnitude
exceeds the single-axis speed by a factor of the square root of two. -/
theorem hookMovement_diagonal_exceeds_speed :
    (updatePlayerMovementHook hookConsts 0 hookInFL hookStart).x = -0.15 ∧
    (updatePlayerMovementHook hookConsts 0 hookInFL hookStart).z = -0.15 ∧
    MOVEMENT_SPEED ^ 2 <
      ((updatePlayerMovementHook hookConsts 0 hookInFL hookStart).x - hookStart.x) ^ 2 +
      ((updatePlayerMovementHook hookConsts 0 hookInFL hookStart).z - hookStart.z) ^ 2 := by
  have h := hook_diag_eval
  refine ⟨h.1, h.2, ?_⟩
  rw [h.1, h.2]
  norm_num [hookStart, MOVEMENT_SPEED]
